import Mathlib

/-!
Shallow embedding of `src/recovery.c` / `src/recovery.h` from the
OS_error_handler repository.

The C code probes the operating system (fopen, stat, open, getrusage,
getloadavg, malloc, /proc/meminfo).  We model the OS as an `Env` of
time-indexed oracles: every external probe reads the oracle at the current
tick of a logical clock and advances the clock, so repeated probes of the
same path may give different answers, exactly as the real OS may.  Each
recovery routine returns its `RecoveryStatus` together with a trace of
observable events (cleanup runs, sleeps with their duration, retry-attempt
starts, path probes, device resets), which is what the claims about
invocation counts, retry budgets and delays quantify over.
-/

set_option autoImplicit false

namespace OSErrorHandler

/-- `RecoveryStatus` enum from `src/recovery.h`. -/
inductive RecoveryStatus
  | RECOVERY_SUCCESS
  | RECOVERY_PARTIAL
  | RECOVERY_FAILED
deriving DecidableEq, Repr

open RecoveryStatus

/-- Modelled from the spec: the `ErrorType` enumeration lives in
`error_handler.h`, which is not under `src/`; the spec lists the closed
ErrorKind set Memory, FileAccess, Device, DeviceBusy, TextBusy,
NullReference, Unknown, and `recovery.c` switches on exactly the first six
named constants with Unknown falling to `default`. -/
inductive ErrorType
  | MEMORY_ERROR
  | FILE_ACCESS_ERROR
  | DEVICE_ERROR
  | NULL_ERROR
  | TXT_BUSY
  | DEVICE_BUSY
  | UNKNOWN_ERROR
deriving DecidableEq, Repr

/-- Observable events of a recovery run: a `cleanup_resources()` call, a
`sleep(sec)` call, the start of retry attempt `n` of some loop, a probe of
a path (fopen / stat+open / open), a device reset attempt on a path. -/
inductive Event
  | cleanup
  | sleepFor (sec : Nat)
  | attempt (n : Nat)
  | probe (path : String)
  | reset (path : String)
deriving DecidableEq, Repr

/-- The operating system as time-indexed oracles.  The `Nat` argument is the
logical clock tick at which the probe happens; every external call consumes
one tick. -/
structure Env where
  /-- `fopen(path, "r") != NULL` at tick t. -/
  fopenRead : String → Nat → Bool
  /-- `stat(path, &st) == 0` at tick t. -/
  statOk : String → Nat → Bool
  /-- `open(path, O_RDONLY | O_NONBLOCK) != -1` at tick t. -/
  openRdNB : String → Nat → Bool
  /-- `open(path, O_RDWR) != -1` at tick t. -/
  openRW : String → Nat → Bool
  /-- `open(path, O_RDWR | O_NONBLOCK) != -1` at tick t. -/
  openRWNB : String → Nat → Bool
  /-- `errno == ETXTBSY` after a failed open at tick t. -/
  errnoTxtBusy : Nat → Bool
  /-- `getrusage(RUSAGE_SELF, &usage) == 0` at tick t. -/
  getrusageOk : Nat → Bool
  /-- `usage.ru_maxrss` read at tick t. -/
  ruMaxrss : Nat → Nat
  /-- `fopen("/proc/meminfo", "r") != NULL` at tick t. -/
  meminfoOk : Nat → Bool
  /-- the `MemTotal:` value in kB parsed at tick t (0 when the line is
  absent or reports zero). -/
  memTotalKB : Nat → Nat
  /-- `malloc(1024) != NULL` at tick t. -/
  mallocOk : Nat → Bool
  /-- `getloadavg(loadavg, 1) == 1` at tick t. -/
  loadavgOk : Nat → Bool
  /-- `loadavg[0] < 0.8` at tick t. -/
  loadLow : Nat → Bool

/-- `#define MAX_RETRIES 3` (recovery.c line 17). -/
def MAX_RETRIES : Nat := 3

/-- `#define RETRY_DELAY 2` seconds (recovery.c line 18). -/
def RETRY_DELAY : Nat := 2

/-- `get_system_memory` (recovery.c lines 27-45): if `/proc/meminfo` does
not open, return `8L * 1024 * 1024`; otherwise parse `MemTotal:` in kB,
multiply by 1024 to bytes, and fall back to `8L * 1024 * 1024` when the
parsed value is zero.  Consumes one tick (the meminfo read). -/
def get_system_memory (env : Env) (t : Nat) : Nat :=
  if env.meminfoOk t then
    if env.memTotalKB t * 1024 ≠ 0 then env.memTotalKB t * 1024
    else 8 * 1024 * 1024
  else 8 * 1024 * 1024

/-- `verify_system_resources` (recovery.c lines 93-103): on getrusage
failure return 0; otherwise return 0 when
`usage.ru_maxrss > MAX_MEMORY_THRESHOLD * get_system_memory()` and 1
otherwise.  The double comparison against `0.9 * mem` is modelled exactly
as the rational comparison `10 * ru_maxrss > 9 * mem`; this agrees with the
C double arithmetic except within one floating-point rounding error of the
threshold.  Returns the flag and the advanced clock. -/
def verify_system_resources (env : Env) (t : Nat) : Bool × Nat :=
  if env.getrusageOk t then
    let mem := get_system_memory env (t + 1)
    (decide (¬ 9 * mem < 10 * env.ruMaxrss t), t + 2)
  else (false, t + 1)

/-- `check_device_status` (recovery.c lines 48-59): `stat` succeeds and the
path opens `O_RDONLY | O_NONBLOCK`.  One tick. -/
def check_device_status (env : Env) (path : String) (t : Nat) : Bool :=
  env.statOk path t && env.openRdNB path t

/-- `reset_device` (recovery.c lines 61-72): returns whether
`open(path, O_RDWR)` succeeded (the ioctl toggles are fire-and-forget).
One tick. -/
def reset_device (env : Env) (path : String) (t : Nat) : Bool :=
  env.openRW path t

/-- `cleanup_resources` (recovery.c lines 75-91): pure side effect, recorded
as a single `Event.cleanup`.  One tick. -/
def cleanup_resources : List Event := [Event.cleanup]

/-- The backup path built by `snprintf(backup_path, 256, "%s.backup",
filepath)` (recovery.c lines 110-111): `filepath ++ ".backup"` truncated to
255 characters by the snprintf buffer bound. -/
def backup_path (filepath : String) : String :=
  String.take (filepath ++ ".backup") 255

/-- The retry loop of `recover_from_file_access_error` (recovery.c lines
113-133), recursing on the remaining attempts.  Each round probes the
target (one tick), then the backup (one tick), then sleeps `RETRY_DELAY`
(one tick). -/
def fileAccessLoop (env : Env) (filepath backup : String) :
    Nat → Nat → Nat → RecoveryStatus × List Event
  | 0, _, _ => (RECOVERY_FAILED, [])
  | remaining + 1, a, t =>
    if env.fopenRead filepath t then
      (RECOVERY_SUCCESS, [Event.attempt a, Event.probe filepath])
    else if env.fopenRead backup (t + 1) then
      (RECOVERY_PARTIAL, [Event.attempt a, Event.probe filepath, Event.probe backup])
    else
      let rest := fileAccessLoop env filepath backup remaining (a + 1) (t + 3)
      (rest.1, [Event.attempt a, Event.probe filepath, Event.probe backup,
                Event.sleepFor RETRY_DELAY] ++ rest.2)

/-- `recover_from_file_access_error` (recovery.c lines 106-137). -/
def recover_from_file_access_error (env : Env) (filepath : String) (t : Nat) :
    RecoveryStatus × List Event :=
  fileAccessLoop env filepath (backup_path filepath) MAX_RETRIES 1 t

/-- `recover_from_memory_error` (recovery.c lines 139-161): run
`cleanup_resources` (tick t), then `verify_system_resources`; on failure
return RECOVERY_FAILED, otherwise try `malloc(1024)` and return
RECOVERY_FAILED on NULL, RECOVERY_SUCCESS otherwise. -/
def recover_from_memory_error (env : Env) (t : Nat) :
    RecoveryStatus × List Event :=
  let v := verify_system_resources env (t + 1)
  if !v.1 then (RECOVERY_FAILED, cleanup_resources)
  else if env.mallocOk v.2 then (RECOVERY_SUCCESS, cleanup_resources)
  else (RECOVERY_FAILED, cleanup_resources)

/-- `recover_from_null_error` (recovery.c lines 163-176): one
`verify_system_resources` check decides success. -/
def recover_from_null_error (env : Env) (t : Nat) :
    RecoveryStatus × List Event :=
  let v := verify_system_resources env t
  if !v.1 then (RECOVERY_FAILED, []) else (RECOVERY_SUCCESS, [])

/-- The fixed candidate device list of `recover_from_device_error`
(recovery.c lines 181-186). -/
def device_paths : List String := ["/dev/tty0", "/dev/null", "/dev/zero"]

/-- The inner attempt loop of `recover_from_device_error` (recovery.c lines
189-206) for one candidate path: check status (one tick), else reset (one
tick), else sleep (one tick).  Returns success flag, trace and the advanced
clock. -/
def deviceAttemptLoop (env : Env) (path : String) :
    Nat → Nat → Nat → Bool × List Event × Nat
  | 0, _, t => (false, [], t)
  | remaining + 1, a, t =>
    if check_device_status env path t then
      (true, [Event.attempt a, Event.probe path], t + 1)
    else if reset_device env path (t + 1) then
      (true, [Event.attempt a, Event.probe path, Event.reset path], t + 2)
    else
      let rest := deviceAttemptLoop env path remaining (a + 1) (t + 3)
      (rest.1, [Event.attempt a, Event.probe path, Event.reset path,
                Event.sleepFor RETRY_DELAY] ++ rest.2.1, rest.2.2)

/-- The outer candidate loop of `recover_from_device_error` (recovery.c
lines 188-207). -/
def deviceCandidateLoop (env : Env) : List String → Nat → Bool × List Event × Nat
  | [], t => (false, [], t)
  | p :: ps, t =>
    let r := deviceAttemptLoop env p MAX_RETRIES 1 t
    if r.1 then (true, r.2.1, r.2.2)
    else
      let rest := deviceCandidateLoop env ps r.2.2
      (rest.1, r.2.1 ++ rest.2.1, rest.2.2)

/-- `recover_from_device_error` (recovery.c lines 178-211). -/
def recover_from_device_error (env : Env) (t : Nat) :
    RecoveryStatus × List Event :=
  let r := deviceCandidateLoop env device_paths t
  (if r.1 then RECOVERY_SUCCESS else RECOVERY_FAILED, r.2.1)

/-- The retry loop of `recover_from_device_busy` (recovery.c lines
216-233): each attempt reads the load average (one tick); when the load is
acceptable it checks `verify_system_resources` and succeeds if safe;
otherwise (and also when the safety check fails) it issues the forced
release (one tick) and sleeps `RETRY_DELAY * 2` (one tick). -/
def deviceBusyLoop (env : Env) : Nat → Nat → Nat → RecoveryStatus × List Event
  | 0, _, _ => (RECOVERY_FAILED, [])
  | remaining + 1, a, t =>
    if env.loadavgOk t && env.loadLow t then
      let v := verify_system_resources env (t + 1)
      if v.1 then (RECOVERY_SUCCESS, [Event.attempt a])
      else
        let rest := deviceBusyLoop env remaining (a + 1) (v.2 + 2)
        (rest.1, [Event.attempt a, Event.sleepFor (RETRY_DELAY * 2)] ++ rest.2)
    else
      let rest := deviceBusyLoop env remaining (a + 1) (t + 3)
      (rest.1, [Event.attempt a, Event.sleepFor (RETRY_DELAY * 2)] ++ rest.2)

/-- `recover_from_device_busy` (recovery.c lines 213-237). -/
def recover_from_device_busy (env : Env) (t : Nat) :
    RecoveryStatus × List Event :=
  deviceBusyLoop env MAX_RETRIES 1 t

/-- The retry loop of `recover_from_txt_busy` (recovery.c lines 242-259):
each attempt opens the path `O_RDWR | O_NONBLOCK` (one tick); on success
RECOVERY_SUCCESS, on a failure whose errno is not ETXTBSY an immediate
RECOVERY_FAILED, otherwise sleep (one tick) and retry. -/
def txtBusyLoop (env : Env) (filepath : String) :
    Nat → Nat → Nat → RecoveryStatus × List Event
  | 0, _, _ => (RECOVERY_FAILED, [])
  | remaining + 1, a, t =>
    if env.openRWNB filepath t then
      (RECOVERY_SUCCESS, [Event.attempt a, Event.probe filepath])
    else if !env.errnoTxtBusy t then
      (RECOVERY_FAILED, [Event.attempt a, Event.probe filepath])
    else
      let rest := txtBusyLoop env filepath remaining (a + 1) (t + 2)
      (rest.1, [Event.attempt a, Event.probe filepath,
                Event.sleepFor RETRY_DELAY] ++ rest.2)

/-- `recover_from_txt_busy` (recovery.c lines 239-262). -/
def recover_from_txt_busy (env : Env) (filepath : String) (t : Nat) :
    RecoveryStatus × List Event :=
  txtBusyLoop env filepath MAX_RETRIES 1 t

/-- The epilogue of `recover_from_error` (recovery.c lines 297-307): after
a strategy returns, run `cleanup_resources` exactly when the status is
RECOVERY_FAILED.  The `default` case of the switch returns before this
code. -/
def dispatch_epilogue (r : RecoveryStatus × List Event) :
    RecoveryStatus × List Event :=
  if r.1 = RECOVERY_FAILED then (r.1, r.2 ++ cleanup_resources) else r

/-- `recover_from_error` (recovery.c lines 264-308): dispatch on the error
type; the FILE_ACCESS_ERROR case passes the fixed path
"/path/to/nonexistent/file.txt" and the TXT_BUSY case the fixed path
"example.lock"; the `default` case (UNKNOWN_ERROR) returns RECOVERY_FAILED
immediately, skipping the failure-cleanup epilogue. -/
def recover_from_error (env : Env) (type : ErrorType) (t : Nat) :
    RecoveryStatus × List Event :=
  match type with
  | ErrorType.MEMORY_ERROR =>
    dispatch_epilogue (recover_from_memory_error env t)
  | ErrorType.FILE_ACCESS_ERROR =>
    dispatch_epilogue
      (recover_from_file_access_error env "/path/to/nonexistent/file.txt" t)
  | ErrorType.DEVICE_ERROR =>
    dispatch_epilogue (recover_from_device_error env t)
  | ErrorType.NULL_ERROR =>
    dispatch_epilogue (recover_from_null_error env t)
  | ErrorType.TXT_BUSY =>
    dispatch_epilogue (recover_from_txt_busy env "example.lock" t)
  | ErrorType.DEVICE_BUSY =>
    dispatch_epilogue (recover_from_device_busy env t)
  | ErrorType.UNKNOWN_ERROR => (RECOVERY_FAILED, [])

/-- Event classifiers used to count trace events. -/
def isCleanup : Event → Bool
  | Event.cleanup => true
  | _ => false

/-- Recognises retry-attempt events. -/
def isAttempt : Event → Bool
  | Event.attempt _ => true
  | _ => false

/-- Recognises sleep events. -/
def isSleep : Event → Bool
  | Event.sleepFor _ => true
  | _ => false

/-- Recognises probe events. -/
def isProbe : Event → Bool
  | Event.probe _ => true
  | _ => false

/-- Number of trace events satisfying `p`. -/
def countEv (p : Event → Bool) : List Event → Nat
  | [] => 0
  | e :: es => (if p e then 1 else 0) + countEv p es

/-- Every sleep event in the trace sleeps for exactly `sec`. -/
def sleepsAre (sec : Nat) : List Event → Bool
  | [] => true
  | Event.sleepFor s :: es => (s == sec) && sleepsAre sec es
  | _ :: es => sleepsAre sec es

/-- An OS in which every probe fails: no file opens, no stat succeeds,
getrusage fails, malloc fails, the load average is unreadable. -/
def envFalse : Env :=
  ⟨fun _ _ => false, fun _ _ => false, fun _ _ => false, fun _ _ => false,
   fun _ _ => false, fun _ => false, fun _ => false, fun _ => 0,
   fun _ => false, fun _ => 0, fun _ => false, fun _ => false, fun _ => false⟩

/-- An OS in which memory recovery succeeds: getrusage works with zero peak
resident memory, /proc/meminfo reports 1 GiB, and the trial malloc
succeeds. -/
def envMemOk : Env :=
  { envFalse with
    getrusageOk := fun _ => true
    meminfoOk := fun _ => true
    memTotalKB := fun _ => 1024 * 1024
    mallocOk := fun _ => true }

/-- An OS in which, of the fixed device candidates, only "/dev/zero" (the
third) is accessible, and no device opens read-write. -/
def envThird : Env :=
  { envFalse with
    statOk := fun p _ => p == "/dev/zero"
    openRdNB := fun p _ => p == "/dev/zero" }

/-- An OS in which every open fails with errno ETXTBSY. -/
def envBusy : Env :=
  { envFalse with errnoTxtBusy := fun _ => true }

/-- An OS sitting exactly on the memory threshold: /proc/meminfo reports
5 kB (5120 bytes), and the process peak resident usage reads 4608, so that
usage is exactly nine tenths of the total. -/
def envBoundary : Env :=
  { envFalse with
    getrusageOk := fun _ => true
    meminfoOk := fun _ => true
    memTotalKB := fun _ => 5
    ruMaxrss := fun _ => 4608 }

/-- An OS in which /proc/meminfo opens but the MemTotal line is absent or
reports zero. -/
def envMemZero : Env :=
  { envFalse with meminfoOk := fun _ => true }

lemma countEv_append (p : Event → Bool) (l₁ l₂ : List Event) :
    countEv p (l₁ ++ l₂) = countEv p l₁ + countEv p l₂ := by
  induction l₁ with
  | nil => simp [countEv]
  | cons e es ih => simp [countEv, ih]; omega

lemma sleepsAre_append (sec : Nat) (l₁ l₂ : List Event) :
    sleepsAre sec (l₁ ++ l₂) = (sleepsAre sec l₁ && sleepsAre sec l₂) := by
  induction l₁ with
  | nil => simp [sleepsAre]
  | cons e es ih =>
    cases e <;> simp [sleepsAre, ih, Bool.and_assoc]

lemma fileAccessLoop_no_cleanup (env : Env) (f b : String) :
    ∀ fuel a t, countEv isCleanup (fileAccessLoop env f b fuel a t).2 = 0 := by
  intro fuel
  induction fuel with
  | zero => intro a t; rfl
  | succ n ih =>
    intro a t
    simp only [fileAccessLoop]
    split
    · rfl
    · split
      · rfl
      · simp [countEv_append, countEv, isCleanup, ih]

lemma fileAccessLoop_failed_attempts (env : Env) (f b : String) :
    ∀ fuel a t, (fileAccessLoop env f b fuel a t).1 = RECOVERY_FAILED →
      countEv isAttempt (fileAccessLoop env f b fuel a t).2 = fuel := by
  intro fuel
  induction fuel with
  | zero => intro a t _; rfl
  | succ n ih =>
    intro a t h
    simp only [fileAccessLoop] at h ⊢
    split at h
    · exact absurd h (by simp)
    · split at h
      · exact absurd h (by simp)
      · rename_i h1 h2
        rw [if_neg h1, if_neg h2]
        have hr := ih (a + 1) (t + 3) h
        simp [countEv_append, countEv, isAttempt, hr]
        omega

lemma fileAccessLoop_sleeps (env : Env) (f b : String) :
    ∀ fuel a t, sleepsAre RETRY_DELAY (fileAccessLoop env f b fuel a t).2 = true := by
  intro fuel
  induction fuel with
  | zero => intro a t; rfl
  | succ n ih =>
    intro a t
    simp only [fileAccessLoop]
    split
    · rfl
    · split
      · rfl
      · simp [sleepsAre_append, sleepsAre, ih]

lemma fileAccessLoop_len (env : Env) (f b : String) :
    ∀ fuel a t, (fileAccessLoop env f b fuel a t).2.length ≤ 4 * fuel := by
  intro fuel
  induction fuel with
  | zero => intro a t; simp [fileAccessLoop]
  | succ n ih =>
    intro a t
    simp only [fileAccessLoop]
    split
    · simp; omega
    · split
      · simp; omega
      · have := ih (a + 1) (t + 3)
        simp at this ⊢
        omega

lemma deviceAttemptLoop_no_cleanup (env : Env) (p : String) :
    ∀ fuel a t, countEv isCleanup (deviceAttemptLoop env p fuel a t).2.1 = 0 := by
  intro fuel
  induction fuel with
  | zero => intro a t; rfl
  | succ n ih =>
    intro a t
    simp only [deviceAttemptLoop]
    split
    · rfl
    · split
      · rfl
      · simp [countEv_append, countEv, isCleanup, ih]

lemma deviceAttemptLoop_failed_attempts (env : Env) (p : String) :
    ∀ fuel a t, (deviceAttemptLoop env p fuel a t).1 = false →
      countEv isAttempt (deviceAttemptLoop env p fuel a t).2.1 = fuel := by
  intro fuel
  induction fuel with
  | zero => intro a t _; rfl
  | succ n ih =>
    intro a t h
    simp only [deviceAttemptLoop] at h ⊢
    split at h
    · exact absurd h (by simp)
    · split at h
      · exact absurd h (by simp)
      · rename_i h1 h2
        rw [if_neg h1, if_neg h2]
        have hr := ih (a + 1) (t + 3) h
        simp [countEv_append, countEv, isAttempt, hr]
        omega

lemma deviceAttemptLoop_sleeps (env : Env) (p : String) :
    ∀ fuel a t, sleepsAre RETRY_DELAY (deviceAttemptLoop env p fuel a t).2.1 = true := by
  intro fuel
  induction fuel with
  | zero => intro a t; rfl
  | succ n ih =>
    intro a t
    simp only [deviceAttemptLoop]
    split
    · rfl
    · split
      · rfl
      · simp [sleepsAre_append, sleepsAre, ih]

lemma deviceAttemptLoop_len (env : Env) (p : String) :
    ∀ fuel a t, (deviceAttemptLoop env p fuel a t).2.1.length ≤ 4 * fuel := by
  intro fuel
  induction fuel with
  | zero => intro a t; simp [deviceAttemptLoop]
  | succ n ih =>
    intro a t
    simp only [deviceAttemptLoop]
    split
    · simp; omega
    · split
      · simp; omega
      · have := ih (a + 1) (t + 3)
        simp at this ⊢
        omega

lemma deviceCandidateLoop_no_cleanup (env : Env) :
    ∀ ps t, countEv isCleanup (deviceCandidateLoop env ps t).2.1 = 0 := by
  intro ps
  induction ps with
  | nil => intro t; rfl
  | cons p ps ih =>
    intro t
    simp only [deviceCandidateLoop]
    split
    · exact deviceAttemptLoop_no_cleanup env p MAX_RETRIES 1 t
    · simp [countEv_append, deviceAttemptLoop_no_cleanup, ih]

lemma deviceCandidateLoop_failed_attempts (env : Env) :
    ∀ ps t, (deviceCandidateLoop env ps t).1 = false →
      countEv isAttempt (deviceCandidateLoop env ps t).2.1 = MAX_RETRIES * ps.length := by
  intro ps
  induction ps with
  | nil => intro t _; rfl
  | cons p ps ih =>
    intro t h
    simp only [deviceCandidateLoop] at h ⊢
    split at h
    · simp at h
    · rename_i h1
      rw [if_neg h1]
      have ha := deviceAttemptLoop_failed_attempts env p MAX_RETRIES 1 t
        (by simpa using h1)
      have hr := ih _ h
      simp [countEv_append, ha, hr, List.length_cons]
      ring

lemma deviceCandidateLoop_sleeps (env : Env) :
    ∀ ps t, sleepsAre RETRY_DELAY (deviceCandidateLoop env ps t).2.1 = true := by
  intro ps
  induction ps with
  | nil => intro t; rfl
  | cons p ps ih =>
    intro t
    simp only [deviceCandidateLoop]
    split
    · exact deviceAttemptLoop_sleeps env p MAX_RETRIES 1 t
    · simp [sleepsAre_append, deviceAttemptLoop_sleeps, ih]

lemma deviceCandidateLoop_len (env : Env) :
    ∀ ps t, (deviceCandidateLoop env ps t).2.1.length ≤ 12 * ps.length := by
  intro ps
  induction ps with
  | nil => intro t; simp [deviceCandidateLoop]
  | cons p ps ih =>
    intro t
    simp only [deviceCandidateLoop]
    split
    · calc (deviceAttemptLoop env p MAX_RETRIES 1 t).2.1.length
          ≤ 4 * MAX_RETRIES := deviceAttemptLoop_len env p MAX_RETRIES 1 t
        _ ≤ 12 * (p :: ps).length := by
            simp only [MAX_RETRIES, List.length_cons]
            omega
    · have h1 := deviceAttemptLoop_len env p MAX_RETRIES 1 t
      have h2 := ih (deviceAttemptLoop env p MAX_RETRIES 1 t).2.2
      simp only [MAX_RETRIES] at h1 h2 ⊢
      simp only [List.length_append, List.length_cons]
      omega

lemma deviceBusyLoop_no_cleanup (env : Env) :
    ∀ fuel a t, countEv isCleanup (deviceBusyLoop env fuel a t).2 = 0 := by
  intro fuel
  induction fuel with
  | zero => intro a t; rfl
  | succ n ih =>
    intro a t
    simp only [deviceBusyLoop]
    split
    · split
      · rfl
      · simp [countEv_append, countEv, isCleanup, ih]
    · simp [countEv_append, countEv, isCleanup, ih]

lemma deviceBusyLoop_failed_attempts (env : Env) :
    ∀ fuel a t, (deviceBusyLoop env fuel a t).1 = RECOVERY_FAILED →
      countEv isAttempt (deviceBusyLoop env fuel a t).2 = fuel := by
  intro fuel
  induction fuel with
  | zero => intro a t _; rfl
  | succ n ih =>
    intro a t h
    simp only [deviceBusyLoop] at h ⊢
    split at h
    · split at h
      · exact absurd h (by simp)
      · rename_i h1 h2
        rw [if_pos h1, if_neg h2]
        have hr := ih _ _ h
        simp [countEv_append, countEv, isAttempt, hr]
        omega
    · rename_i h1
      rw [if_neg h1]
      have hr := ih _ _ h
      simp [countEv_append, countEv, isAttempt, hr]
      omega

lemma deviceBusyLoop_sleeps (env : Env) :
    ∀ fuel a t, sleepsAre (RETRY_DELAY * 2) (deviceBusyLoop env fuel a t).2 = true := by
  intro fuel
  induction fuel with
  | zero => intro a t; rfl
  | succ n ih =>
    intro a t
    simp only [deviceBusyLoop]
    split
    · split
      · rfl
      · simp [sleepsAre_append, sleepsAre, ih]
    · simp [sleepsAre_append, sleepsAre, ih]

lemma deviceBusyLoop_len (env : Env) :
    ∀ fuel a t, (deviceBusyLoop env fuel a t).2.length ≤ 2 * fuel := by
  intro fuel
  induction fuel with
  | zero => intro a t; simp [deviceBusyLoop]
  | succ n ih =>
    intro a t
    simp only [deviceBusyLoop]
    split
    · split
      · simp; omega
      · have := ih (a + 1) ((verify_system_resources env (t + 1)).2 + 2)
        simp at this ⊢
        omega
    · have := ih (a + 1) (t + 3)
      simp at this ⊢
      omega

lemma txtBusyLoop_no_cleanup (env : Env) (f : String) :
    ∀ fuel a t, countEv isCleanup (txtBusyLoop env f fuel a t).2 = 0 := by
  intro fuel
  induction fuel with
  | zero => intro a t; rfl
  | succ n ih =>
    intro a t
    simp only [txtBusyLoop]
    split
    · rfl
    · split
      · rfl
      · simp [countEv_append, countEv, isCleanup, ih]

lemma txtBusyLoop_sleeps (env : Env) (f : String) :
    ∀ fuel a t, sleepsAre RETRY_DELAY (txtBusyLoop env f fuel a t).2 = true := by
  intro fuel
  induction fuel with
  | zero => intro a t; rfl
  | succ n ih =>
    intro a t
    simp only [txtBusyLoop]
    split
    · rfl
    · split
      · rfl
      · simp [sleepsAre_append, sleepsAre, ih]

lemma txtBusyLoop_len (env : Env) (f : String) :
    ∀ fuel a t, (txtBusyLoop env f fuel a t).2.length ≤ 3 * fuel := by
  intro fuel
  induction fuel with
  | zero => intro a t; simp [txtBusyLoop]
  | succ n ih =>
    intro a t
    simp only [txtBusyLoop]
    split
    · simp; omega
    · split
      · simp; omega
      · have := ih (a + 1) (t + 2)
        simp at this ⊢
        omega

lemma txtBusyLoop_early_exit (env : Env) (f : String) (fuel a t : Nat)
    (h1 : env.openRWNB f t = false) (h2 : env.errnoTxtBusy t = false) :
    txtBusyLoop env f (fuel + 1) a t =
      (RECOVERY_FAILED, [Event.attempt a, Event.probe f]) := by
  simp [txtBusyLoop, h1, h2]

lemma memory_trace (env : Env) (t : Nat) :
    (recover_from_memory_error env t).2 = [Event.cleanup] := by
  simp only [recover_from_memory_error, cleanup_resources]
  split
  · rfl
  · split
    · rfl
    · rfl

lemma null_trace (env : Env) (t : Nat) :
    (recover_from_null_error env t).2 = [] := by
  simp only [recover_from_null_error]
  split
  · rfl
  · rfl

/-- An OS in which every path opens for reading. -/
def envOpenAll : Env :=
  { envFalse with fopenRead := fun _ _ => true }

/-- An OS in which only the path "f.backup" opens for reading. -/
def envBackupOnly : Env :=
  { envFalse with fopenRead := fun p _ => p == "f.backup" }

lemma fileAccessLoop_probe_paths (env : Env) (f b : String) :
    ∀ fuel a t p, Event.probe p ∈ (fileAccessLoop env f b fuel a t).2 →
      p = f ∨ p = b := by
  intro fuel
  induction fuel with
  | zero => intro a t p hp; simp [fileAccessLoop] at hp
  | succ n ih =>
    intro a t p hp
    simp only [fileAccessLoop] at hp
    split at hp
    · simp at hp
      exact Or.inl hp
    · split at hp
      · simp at hp
        rcases hp with h | h
        · exact Or.inl h
        · exact Or.inr h
      · simp at hp
        rcases hp with h | h | h
        · exact Or.inl h
        · exact Or.inr h
        · exact ih (a + 1) (t + 3) p (by simpa using h)

lemma txtBusyLoop_probe_paths (env : Env) (f : String) :
    ∀ fuel a t p, Event.probe p ∈ (txtBusyLoop env f fuel a t).2 → p = f := by
  intro fuel
  induction fuel with
  | zero => intro a t p hp; simp [txtBusyLoop] at hp
  | succ n ih =>
    intro a t p hp
    simp only [txtBusyLoop] at hp
    split at hp
    · simp at hp; exact hp
    · split at hp
      · simp at hp; exact hp
      · simp at hp
        rcases hp with h | h
        · exact h
        · exact ih (a + 1) (t + 2) p (by simpa using h)

/-- C1 counterexample: the claim "CleanupAction is invoked exactly once iff
the outcome is Failed and zero times otherwise" is already false for
`recover(Memory)` in an OS where memory recovery succeeds: the outcome is
Success yet `cleanup_resources` ran once, because
`recover_from_memory_error` calls it unconditionally. -/
theorem claim_C1_counterexample :
    (recover_from_error envMemOk ErrorType.MEMORY_ERROR 0).1 = RECOVERY_SUCCESS ∧
    countEv isCleanup (recover_from_error envMemOk ErrorType.MEMORY_ERROR 0).2 = 1 := by
  constructor <;> rfl

/-- C1 amended: for every kind other than Memory and Unknown,
`cleanup_resources` is invoked exactly once iff the dispatch outcome is
Failed, zero times otherwise; for Memory it is invoked once on non-Failed
outcomes and twice on Failed (once inside the strategy, once in the
dispatcher epilogue); for Unknown the dispatcher returns Failed with zero
invocations, skipping the epilogue. -/
theorem claim_C1_amended (env : Env) (t : Nat) (k : ErrorType) :
    countEv isCleanup (recover_from_error env k t).2 =
      (if k = ErrorType.UNKNOWN_ERROR then 0
       else if k = ErrorType.MEMORY_ERROR then
         (if (recover_from_error env k t).1 = RECOVERY_FAILED then 2 else 1)
       else if (recover_from_error env k t).1 = RECOVERY_FAILED then 1 else 0) := by
  have key : ∀ r : RecoveryStatus × List Event, countEv isCleanup r.2 = 0 →
      countEv isCleanup (dispatch_epilogue r).2 =
        (if (dispatch_epilogue r).1 = RECOVERY_FAILED then 1 else 0) := by
    intro r h0
    simp only [dispatch_epilogue]
    split
    · rename_i hf
      simp [hf, countEv_append, countEv, isCleanup, cleanup_resources, h0]
    · rename_i hf
      simp [hf, h0]
  have keymem : ∀ r : RecoveryStatus × List Event, countEv isCleanup r.2 = 1 →
      countEv isCleanup (dispatch_epilogue r).2 =
        (if (dispatch_epilogue r).1 = RECOVERY_FAILED then 2 else 1) := by
    intro r h0
    simp only [dispatch_epilogue]
    split
    · rename_i hf
      simp [hf, countEv_append, countEv, isCleanup, cleanup_resources, h0]
    · rename_i hf
      simp [hf, h0]
  cases k with
  | MEMORY_ERROR =>
    simp only [recover_from_error]
    rw [keymem _ (by rw [memory_trace]; rfl)]
    simp
  | FILE_ACCESS_ERROR =>
    simp only [recover_from_error]
    rw [key (recover_from_file_access_error env "/path/to/nonexistent/file.txt" t)
      (fileAccessLoop_no_cleanup env _ _ MAX_RETRIES 1 t)]
    simp
  | DEVICE_ERROR =>
    simp only [recover_from_error]
    rw [key _ (deviceCandidateLoop_no_cleanup env device_paths t)]
    simp
  | NULL_ERROR =>
    simp only [recover_from_error]
    rw [key _ (by rw [null_trace]; rfl)]
    simp
  | TXT_BUSY =>
    simp only [recover_from_error]
    rw [key (recover_from_txt_busy env "example.lock" t)
      (txtBusyLoop_no_cleanup env _ MAX_RETRIES 1 t)]
    simp
  | DEVICE_BUSY =>
    simp only [recover_from_error]
    rw [key (recover_from_device_busy env t)
      (deviceBusyLoop_no_cleanup env MAX_RETRIES 1 t)]
    simp
  | UNKNOWN_ERROR =>
    simp [recover_from_error, countEv]

/-- C2: for every ErrorKind other than Unknown, `recover_from_error`
terminates with one of the three RecoveryStatus values, and the whole run
performs a bounded number of observable actions (at most 40 events: every
retry loop is bounded by MAX_RETRIES and the candidate list is finite). -/
theorem claim_C2 (env : Env) (t : Nat) (k : ErrorType)
    (h : k ≠ ErrorType.UNKNOWN_ERROR) :
    ((recover_from_error env k t).1 = RECOVERY_SUCCESS ∨
     (recover_from_error env k t).1 = RECOVERY_PARTIAL ∨
     (recover_from_error env k t).1 = RECOVERY_FAILED) ∧
    (recover_from_error env k t).2.length ≤ 40 := by
  have hlen : ∀ r : RecoveryStatus × List Event,
      (dispatch_epilogue r).2.length ≤ r.2.length + 1 := by
    intro r
    simp only [dispatch_epilogue]
    split <;> simp [cleanup_resources]
  constructor
  · cases hs : (recover_from_error env k t).1 <;> simp
  · cases k with
    | MEMORY_ERROR =>
      have h1 := hlen (recover_from_memory_error env t)
      have h2 : (recover_from_memory_error env t).2.length = 1 := by
        rw [memory_trace]; rfl
      simp only [recover_from_error]
      omega
    | FILE_ACCESS_ERROR =>
      have h1 := hlen (recover_from_file_access_error env
        "/path/to/nonexistent/file.txt" t)
      have h2 := fileAccessLoop_len env "/path/to/nonexistent/file.txt"
        (backup_path "/path/to/nonexistent/file.txt") MAX_RETRIES 1 t
      simp only [MAX_RETRIES] at h2
      simp only [recover_from_error]
      have h3 : (recover_from_file_access_error env
          "/path/to/nonexistent/file.txt" t).2.length ≤ 12 := h2
      omega
    | DEVICE_ERROR =>
      have h1 := hlen (recover_from_device_error env t)
      have h2 := deviceCandidateLoop_len env device_paths t
      simp only [device_paths, List.length_cons, List.length_nil] at h2
      simp only [recover_from_error]
      have h3 : (recover_from_device_error env t).2.length ≤ 36 := by
        simpa using h2
      omega
    | NULL_ERROR =>
      have h1 := hlen (recover_from_null_error env t)
      have h2 : (recover_from_null_error env t).2.length = 0 := by
        rw [null_trace]; rfl
      simp only [recover_from_error]
      omega
    | TXT_BUSY =>
      have h1 := hlen (recover_from_txt_busy env "example.lock" t)
      have h2 := txtBusyLoop_len env "example.lock" MAX_RETRIES 1 t
      simp only [MAX_RETRIES] at h2
      simp only [recover_from_error]
      have h3 : (recover_from_txt_busy env "example.lock" t).2.length ≤ 9 := h2
      omega
    | DEVICE_BUSY =>
      have h1 := hlen (recover_from_device_busy env t)
      have h2 := deviceBusyLoop_len env MAX_RETRIES 1 t
      simp only [MAX_RETRIES] at h2
      simp only [recover_from_error]
      have h3 : (recover_from_device_busy env t).2.length ≤ 6 := h2
      omega
    | UNKNOWN_ERROR => exact absurd rfl h

/-- C2 witness: the theorem applied to the all-failing OS and the Memory
kind. -/
theorem claim_C2_witness :
    ((recover_from_error envFalse ErrorType.MEMORY_ERROR 0).1 = RECOVERY_SUCCESS ∨
     (recover_from_error envFalse ErrorType.MEMORY_ERROR 0).1 = RECOVERY_PARTIAL ∨
     (recover_from_error envFalse ErrorType.MEMORY_ERROR 0).1 = RECOVERY_FAILED) ∧
    (recover_from_error envFalse ErrorType.MEMORY_ERROR 0).2.length ≤ 40 :=
  claim_C2 envFalse 0 ErrorType.MEMORY_ERROR (by decide)

/-- C3: the FileAccess strategy returns RECOVERY_SUCCESS when the target
path opens for reading, RECOVERY_PARTIAL when only the sibling
`<path>.backup` opens, and when neither ever opens it returns
RECOVERY_FAILED after exactly MAX_RETRIES (3) probe rounds, with a sleep of
RETRY_DELAY after every failed round (in particular between consecutive
rounds). -/
theorem claim_C3 (env : Env) (filepath : String) (t : Nat) :
    ((∀ s, env.fopenRead filepath s = true) →
      (recover_from_file_access_error env filepath t).1 = RECOVERY_SUCCESS) ∧
    ((∀ s, env.fopenRead filepath s = false) →
     (∀ s, env.fopenRead (backup_path filepath) s = true) →
      (recover_from_file_access_error env filepath t).1 = RECOVERY_PARTIAL) ∧
    ((∀ s, env.fopenRead filepath s = false) →
     (∀ s, env.fopenRead (backup_path filepath) s = false) →
      (recover_from_file_access_error env filepath t).1 = RECOVERY_FAILED ∧
      (recover_from_file_access_error env filepath t).2 =
        [Event.attempt 1, Event.probe filepath, Event.probe (backup_path filepath),
         Event.sleepFor RETRY_DELAY,
         Event.attempt 2, Event.probe filepath, Event.probe (backup_path filepath),
         Event.sleepFor RETRY_DELAY,
         Event.attempt 3, Event.probe filepath, Event.probe (backup_path filepath),
         Event.sleepFor RETRY_DELAY]) := by
  refine ⟨?_, ?_, ?_⟩
  · intro hf
    simp [recover_from_file_access_error, MAX_RETRIES, fileAccessLoop, hf]
  · intro hf hb
    simp [recover_from_file_access_error, MAX_RETRIES, fileAccessLoop, hf, hb]
  · intro hf hb
    constructor
    · simp [recover_from_file_access_error, MAX_RETRIES, fileAccessLoop, hf, hb]
    · simp [recover_from_file_access_error, MAX_RETRIES, fileAccessLoop, hf, hb]

set_option maxRecDepth 100000 in
/-- C3 witness: the theorem applied to an OS where every path opens (the
Success case) and to the all-failing OS (the Failed case, with its exact
trace of three probe rounds and the sleeps between them). -/
theorem claim_C3_witness :
    (recover_from_file_access_error envOpenAll "f" 0).1 = RECOVERY_SUCCESS ∧
    (recover_from_file_access_error envBackupOnly "f" 0).1 = RECOVERY_PARTIAL ∧
    (recover_from_file_access_error envFalse "f" 0).1 = RECOVERY_FAILED :=
  ⟨(claim_C3 envOpenAll "f" 0).1 (fun _ => rfl),
   (claim_C3 envBackupOnly "f" 0).2.1 (fun _ => rfl) (fun _ => rfl),
   ((claim_C3 envFalse "f" 0).2.2 (fun _ => rfl) (fun _ => rfl)).1⟩

/-- C4: the Memory strategy runs `cleanup_resources` exactly once (it has no
retry loop); if `verify_system_resources` reports unsafe after that cleanup
the result is RECOVERY_FAILED; if it reports safe and the trial
`malloc(1024)` succeeds the result is RECOVERY_SUCCESS; the strategy never
returns RECOVERY_PARTIAL. -/
theorem claim_C4 (env : Env) (t : Nat) :
    countEv isCleanup (recover_from_memory_error env t).2 = 1 ∧
    ((verify_system_resources env (t + 1)).1 = false →
      (recover_from_memory_error env t).1 = RECOVERY_FAILED) ∧
    ((verify_system_resources env (t + 1)).1 = true →
      env.mallocOk (verify_system_resources env (t + 1)).2 = true →
      (recover_from_memory_error env t).1 = RECOVERY_SUCCESS) ∧
    (recover_from_memory_error env t).1 ≠ RECOVERY_PARTIAL := by
  refine ⟨by rw [memory_trace]; rfl, ?_, ?_, ?_⟩
  · intro h
    simp [recover_from_memory_error, h]
  · intro h1 h2
    simp [recover_from_memory_error, h1, h2]
  · simp only [recover_from_memory_error]
    split
    · simp
    · split <;> simp

/-- C4 witness: the theorem applied to the all-failing OS (unsafe resources
give Failed; exactly one cleanup) and to an OS with ample memory (Success). -/
theorem claim_C4_witness :
    countEv isCleanup (recover_from_memory_error envFalse 0).2 = 1 ∧
    (recover_from_memory_error envFalse 0).1 = RECOVERY_FAILED ∧
    (recover_from_memory_error envMemOk 0).1 = RECOVERY_SUCCESS :=
  ⟨(claim_C4 envFalse 0).1,
   (claim_C4 envFalse 0).2.1 rfl,
   (claim_C4 envMemOk 0).2.2.1 rfl rfl⟩

/-- C5: the Device strategy tries the fixed candidate list in priority
order: in an OS where only the third candidate "/dev/zero" is accessible it
returns RECOVERY_SUCCESS with the exact trace below — the first two
candidates each exhaust their three attempts, and the run ends at the
successful probe of the third candidate with no event after it; and in any
OS, a RECOVERY_FAILED result is only reached after all 3 candidates times
MAX_RETRIES attempts (9 attempt events). -/
theorem claim_C5 :
    recover_from_device_error envThird 0 =
      (RECOVERY_SUCCESS,
       [Event.attempt 1, Event.probe "/dev/tty0", Event.reset "/dev/tty0",
        Event.sleepFor 2,
        Event.attempt 2, Event.probe "/dev/tty0", Event.reset "/dev/tty0",
        Event.sleepFor 2,
        Event.attempt 3, Event.probe "/dev/tty0", Event.reset "/dev/tty0",
        Event.sleepFor 2,
        Event.attempt 1, Event.probe "/dev/null", Event.reset "/dev/null",
        Event.sleepFor 2,
        Event.attempt 2, Event.probe "/dev/null", Event.reset "/dev/null",
        Event.sleepFor 2,
        Event.attempt 3, Event.probe "/dev/null", Event.reset "/dev/null",
        Event.sleepFor 2,
        Event.attempt 1, Event.probe "/dev/zero"]) ∧
    (∀ env : Env, ∀ t : Nat, (recover_from_device_error env t).1 = RECOVERY_FAILED →
      countEv isAttempt (recover_from_device_error env t).2 = 3 * MAX_RETRIES) := by
  constructor
  · decide
  · intro env t h
    simp only [recover_from_device_error] at h ⊢
    cases hb : (deviceCandidateLoop env device_paths t).1 with
    | false =>
      have hc := deviceCandidateLoop_failed_attempts env device_paths t hb
      simp only [device_paths, List.length_cons, List.length_nil] at hc
      simpa [Nat.mul_comm] using hc
    | true => rw [hb] at h; simp at h

/-- C5 witness: the second part applied to the all-failing OS, where the
device strategy fails after 9 attempts. -/
theorem claim_C5_witness :
    countEv isAttempt (recover_from_device_error envFalse 0).2 = 3 * MAX_RETRIES :=
  claim_C5.2 envFalse 0 (by rfl)

/-- C6: a TextBusy attempt that fails with an errno other than ETXTBSY makes
the strategy return RECOVERY_FAILED immediately: at any attempt index and
any remaining budget the loop stops with just that attempt's events and no
sleep; at the dispatch level a first-attempt non-busy failure yields exactly
one attempt and no sleep.  Apart from this case (and the Unknown kind, which
runs no strategy), no looping strategy leaves its retry loop with
RECOVERY_FAILED before exhausting its budget: a Failed FileAccess run made
exactly MAX_RETRIES attempts, a Failed Device run 3 * MAX_RETRIES, a Failed
DeviceBusy run MAX_RETRIES. -/
theorem claim_C6 (env : Env) (f : String) (t : Nat) :
    (∀ fuel a, env.openRWNB f t = false → env.errnoTxtBusy t = false →
      txtBusyLoop env f (fuel + 1) a t =
        (RECOVERY_FAILED, [Event.attempt a, Event.probe f])) ∧
    (env.openRWNB f t = false → env.errnoTxtBusy t = false →
      recover_from_txt_busy env f t =
        (RECOVERY_FAILED, [Event.attempt 1, Event.probe f])) ∧
    ((recover_from_file_access_error env f t).1 = RECOVERY_FAILED →
      countEv isAttempt (recover_from_file_access_error env f t).2 = MAX_RETRIES) ∧
    ((recover_from_device_error env t).1 = RECOVERY_FAILED →
      countEv isAttempt (recover_from_device_error env t).2 = 3 * MAX_RETRIES) ∧
    ((recover_from_device_busy env t).1 = RECOVERY_FAILED →
      countEv isAttempt (recover_from_device_busy env t).2 = MAX_RETRIES) := by
  refine ⟨?_, ?_, ?_, ?_, ?_⟩
  · intro fuel a h1 h2
    exact txtBusyLoop_early_exit env f fuel a t h1 h2
  · intro h1 h2
    exact txtBusyLoop_early_exit env f 2 1 t h1 h2
  · intro h
    exact fileAccessLoop_failed_attempts env f (backup_path f) MAX_RETRIES 1 t h
  · intro h
    simp only [recover_from_device_error] at h ⊢
    cases hb : (deviceCandidateLoop env device_paths t).1 with
    | false =>
      have hc := deviceCandidateLoop_failed_attempts env device_paths t hb
      simp only [device_paths, List.length_cons, List.length_nil] at hc
      simpa [Nat.mul_comm] using hc
    | true => rw [hb] at h; simp at h
  · intro h
    exact deviceBusyLoop_failed_attempts env MAX_RETRIES 1 t h

/-- C6 witness: in the all-failing OS (where errno is never ETXTBSY) the
TextBusy strategy fails immediately with a single attempt and no sleep,
and the Failed FileAccess / Device / DeviceBusy runs show full budgets. -/
theorem claim_C6_witness :
    recover_from_txt_busy envFalse "example.lock" 0 =
      (RECOVERY_FAILED, [Event.attempt 1, Event.probe "example.lock"]) ∧
    countEv isAttempt (recover_from_file_access_error envFalse "f" 0).2 = MAX_RETRIES ∧
    countEv isAttempt (recover_from_device_busy envFalse 0).2 = MAX_RETRIES :=
  ⟨(claim_C6 envFalse "example.lock" 0).2.1 rfl rfl,
   (claim_C6 envFalse "f" 0).2.2.1 rfl,
   (claim_C6 envFalse "f" 0).2.2.2.2 rfl⟩

/-- C7 counterexample: the claim "returns true iff the usage fraction is
strictly less than 0.9" fails at the boundary: in an OS whose total memory
is 5120 bytes with peak resident usage 4608 (a fraction of exactly 0.9,
not less), `verify_system_resources` still reports safe, because the C code
uses `>` against the threshold, i.e. reports safe when usage ≤ 0.9·total. -/
theorem claim_C7_counterexample :
    (verify_system_resources envBoundary 0).1 = true ∧
    ¬ (10 * envBoundary.ruMaxrss 0 < 9 * get_system_memory envBoundary 1) := by
  constructor
  · rfl
  · decide

/-- C7 amended: `verify_system_resources` returns true iff the getrusage
probe succeeds and the peak resident usage does not exceed nine tenths of
the total system memory (fraction ≤ 0.9, not < 0.9); in particular it
returns false whenever the usage probe fails. -/
theorem claim_C7_amended (env : Env) (t : Nat) :
    (verify_system_resources env t).1 = true ↔
      (env.getrusageOk t = true ∧
       10 * env.ruMaxrss t ≤ 9 * get_system_memory env (t + 1)) := by
  simp only [verify_system_resources]
  split
  · rename_i h
    simp [h, Nat.not_lt]
  · rename_i h
    simp [h]

/-- C8: the claim says the fallback total is 8 GiB, and the code's own
comment says "Default to 8GB", but `get_system_memory` returns
`8L * 1024 * 1024` = 8388608 when /proc/meminfo is unreadable or reports
zero.  Since the parsed branch returns bytes (kB · 1024), the fallback is
8 MiB, 1024 times smaller than the documented 8 GiB: with /proc/meminfo
reporting 1 GiB (1048576 kB) the function returns 1073741824 bytes, so the
unit of the return value is bytes and 8388608 bytes ≠ 8 GiB. -/
theorem claim_C8_bug :
    get_system_memory envFalse 0 = 8388608 ∧
    get_system_memory envMemZero 0 = 8388608 ∧
    get_system_memory envMemOk 0 = 1073741824 ∧
    (8388608 : Nat) * 1024 = 8 * 1024 * 1024 * 1024 := by
  refine ⟨rfl, rfl, rfl, by norm_num⟩

/-- C9 counterexample: the claim "every strategy uses the shared retry
policy of 3 attempts with a 2-time-unit delay between failed attempts"
fails for the Memory strategy, which has no retry loop at all: in the
all-failing OS it returns RECOVERY_FAILED after a single pass with zero
retry attempts and zero sleeps. -/
theorem claim_C9_counterexample :
    (recover_from_memory_error envFalse 0).1 = RECOVERY_FAILED ∧
    countEv isAttempt (recover_from_memory_error envFalse 0).2 = 0 ∧
    countEv isSleep (recover_from_memory_error envFalse 0).2 = 0 := by
  refine ⟨rfl, rfl, rfl⟩

/-- C9 amended: MAX_RETRIES is 3 and RETRY_DELAY is 2; the retrying
strategies FileAccess, Device and TextBusy sleep exactly RETRY_DELAY
between failed attempts, while DeviceBusy sleeps the doubled delay
RETRY_DELAY * 2; Memory and NullReference are single-shot, with no retry
attempts and no sleeps; and when every probe fails, FileAccess, TextBusy
and DeviceBusy make exactly MAX_RETRIES attempts and Device makes
MAX_RETRIES per candidate (9 in total). -/
theorem claim_C9_amended (env : Env) (f : String) (t : Nat) :
    MAX_RETRIES = 3 ∧ RETRY_DELAY = 2 ∧
    sleepsAre RETRY_DELAY (recover_from_file_access_error env f t).2 = true ∧
    sleepsAre RETRY_DELAY (recover_from_device_error env t).2 = true ∧
    sleepsAre RETRY_DELAY (recover_from_txt_busy env f t).2 = true ∧
    sleepsAre (RETRY_DELAY * 2) (recover_from_device_busy env t).2 = true ∧
    countEv isSleep (recover_from_memory_error env t).2 = 0 ∧
    countEv isAttempt (recover_from_memory_error env t).2 = 0 ∧
    countEv isSleep (recover_from_null_error env t).2 = 0 ∧
    countEv isAttempt (recover_from_null_error env t).2 = 0 ∧
    countEv isAttempt (recover_from_file_access_error envFalse f 0).2 = MAX_RETRIES ∧
    countEv isAttempt (recover_from_device_error envFalse 0).2 = 3 * MAX_RETRIES ∧
    countEv isAttempt (recover_from_txt_busy envBusy f 0).2 = MAX_RETRIES ∧
    countEv isAttempt (recover_from_device_busy envFalse 0).2 = MAX_RETRIES := by
  refine ⟨rfl, rfl, ?_, ?_, ?_, ?_, ?_, ?_, ?_, ?_, ?_, ?_, ?_, ?_⟩
  · exact fileAccessLoop_sleeps env f (backup_path f) MAX_RETRIES 1 t
  · exact deviceCandidateLoop_sleeps env device_paths t
  · exact txtBusyLoop_sleeps env f MAX_RETRIES 1 t
  · exact deviceBusyLoop_sleeps env MAX_RETRIES 1 t
  · rw [memory_trace]; rfl
  · rw [memory_trace]; rfl
  · rw [null_trace]; rfl
  · rw [null_trace]; rfl
  · simp [recover_from_file_access_error, MAX_RETRIES, fileAccessLoop, envFalse,
      countEv, isAttempt]
  · decide
  · simp [recover_from_txt_busy, MAX_RETRIES, txtBusyLoop, envBusy, envFalse,
      countEv, isAttempt]
  · decide

set_option maxRecDepth 100000 in
/-- C10: the dispatcher never forwards a caller-supplied path: every path
the FileAccess dispatch probes is the fixed constant
"/path/to/nonexistent/file.txt" or its backup sibling
"/path/to/nonexistent/file.txt.backup" (which is what `backup_path`
computes from the constant), and every path the TextBusy dispatch probes is
the fixed constant "example.lock", in every OS. -/
theorem claim_C10 (env : Env) (t : Nat) :
    (∀ p, Event.probe p ∈ (recover_from_error env ErrorType.FILE_ACCESS_ERROR t).2 →
       p = "/path/to/nonexistent/file.txt" ∨
       p = "/path/to/nonexistent/file.txt.backup") ∧
    (∀ p, Event.probe p ∈ (recover_from_error env ErrorType.TXT_BUSY t).2 →
       p = "example.lock") ∧
    backup_path "/path/to/nonexistent/file.txt" =
      "/path/to/nonexistent/file.txt.backup" := by
  have hbp : backup_path "/path/to/nonexistent/file.txt" =
      "/path/to/nonexistent/file.txt.backup" := by decide
  refine ⟨?_, ?_, hbp⟩
  · intro p hp
    simp only [recover_from_error, dispatch_epilogue] at hp
    have hp2 : Event.probe p ∈ (recover_from_file_access_error env
        "/path/to/nonexistent/file.txt" t).2 := by
      split at hp
      · simp [cleanup_resources] at hp
        exact hp
      · exact hp
    have := fileAccessLoop_probe_paths env "/path/to/nonexistent/file.txt"
      (backup_path "/path/to/nonexistent/file.txt") MAX_RETRIES 1 t p hp2
    rwa [hbp] at this
  · intro p hp
    simp only [recover_from_error, dispatch_epilogue] at hp
    have hp2 : Event.probe p ∈ (recover_from_txt_busy env "example.lock" t).2 := by
      split at hp
      · simp [cleanup_resources] at hp
        exact hp
      · exact hp
    exact txtBusyLoop_probe_paths env "example.lock" MAX_RETRIES 1 t p hp2

set_option maxRecDepth 100000 in
/-- C10 witness: the theorem applied in the all-failing OS to the probes the
two dispatches actually make. -/
theorem claim_C10_witness :
    ("/path/to/nonexistent/file.txt" = "/path/to/nonexistent/file.txt" ∨
     "/path/to/nonexistent/file.txt" = "/path/to/nonexistent/file.txt.backup") ∧
    "example.lock" = "example.lock" :=
  ⟨(claim_C10 envFalse 0).1 "/path/to/nonexistent/file.txt" (by decide),
   (claim_C10 envFalse 0).2.1 "example.lock" (by decide)⟩

end OSErrorHandler
